import Mathlib

/-!
Shallow embedding of two source files of the rs_pbrt repository:
  src/samplers/stratified.rs  (StratifiedSampler)
  src/lights/point.rs         (PointLight)
The f32 scalar type `Float` is modelled by ℚ in the sampler embedding
(every sampler operation is field arithmetic, kept executable) and by ℝ in
the light embedding (which needs square roots and trigonometry).
Rust machine integers are modelled by ℤ (i32, i64) and ℕ (usize).
Rust panics (assert!, assert_eq!, out-of-bounds indexing) are modelled by
Option-valued operations: a `none` result is an aborted computation.
-/

/-- Rust generic `Point2<T>` from core/geometry.rs; `Point2f = Point2<Float>`
is modelled as `Point2 ℚ` in the sampler, `Point2i = Point2<i32>` as `Point2 ℤ`. -/
structure Point2 (α : Type) where
  x : α
  y : α
  deriving DecidableEq, Repr

/-- Modelled from the spec: the deterministic RNG of core/rng.rs is not under
src/; the spec describes it as a seedable pseudo-random float generator.
It is modelled as an abstract stream of floats (for `uniform_float`) and of
naturals (for the bounded integer draws used by the shuffle), together with
a cursor recording how many draws have been consumed; every draw advances
the cursor by one, so theorems about draw order are about cursor positions. -/
structure Rng where
  floats : ℕ → ℚ
  nats : ℕ → ℕ
  idx : ℕ

/-- Modelled from the spec: a fresh uniform float draw, advancing the stream. -/
def Rng.uniform_float (r : Rng) : ℚ × Rng :=
  (r.floats r.idx, { r with idx := r.idx + 1 })

/-- Modelled from the spec: a bounded uniform integer draw (used by the
in-place shuffle), advancing the stream. -/
def Rng.uniform_uint32_bounded (r : Rng) (b : ℕ) : ℕ × Rng :=
  (r.nats r.idx % b, { r with idx := r.idx + 1 })

/-- Modelled from the spec: the largest float below one, clamping generated
samples into [0,1). -/
def oneMinusEpsilon : ℚ := 1 - 1 / 16777216

/-- Modelled from the spec: stratified 1D generation over [0,1) — exact
stratum centers when jitter is disabled, uniform-in-stratum offsets when
enabled.  `i` is the first stratum index, `fuel` the number of strata left. -/
def stratified1dFrom (i n fuel : ℕ) (jitter : Bool) (rng : Rng) : List ℚ × Rng :=
  match fuel with
  | 0 => ([], rng)
  | f + 1 =>
    let d := if jitter then rng.uniform_float else ((1 : ℚ) / 2, rng)
    let v := min (((i : ℚ) + d.1) / (n : ℚ)) oneMinusEpsilon
    let rest := stratified1dFrom (i + 1) n f jitter d.2
    (v :: rest.1, rest.2)

/-- Modelled from the spec: `stratified_sample_1d` of core/sampling.rs
(not under src/) fills `n` stratified scalars. -/
def stratified_sample_1d (n : ℕ) (jitter : Bool) (rng : Rng) : List ℚ × Rng :=
  stratified1dFrom 0 n n jitter rng

/-- Modelled from the spec: one row-major pass over the `nx × ny` stratum
grid, producing one jittered (or centered) 2D point per stratum. -/
def stratified2dFrom (x y nx ny fuel : ℕ) (jitter : Bool) (rng : Rng) :
    List (Point2 ℚ) × Rng :=
  match fuel with
  | 0 => ([], rng)
  | f + 1 =>
    let dx := if jitter then rng.uniform_float else ((1 : ℚ) / 2, rng)
    let dy := if jitter then dx.2.uniform_float else ((1 : ℚ) / 2, dx.2)
    let pt : Point2 ℚ :=
      { x := min (((x : ℚ) + dx.1) / (nx : ℚ)) oneMinusEpsilon
        y := min (((y : ℚ) + dy.1) / (ny : ℚ)) oneMinusEpsilon }
    let next := if x + 1 = nx then (0, y + 1) else (x + 1, y)
    let rest := stratified2dFrom next.1 next.2 nx ny f jitter dy.2
    (pt :: rest.1, rest.2)

/-- Modelled from the spec: `stratified_sample_2d` of core/sampling.rs
(not under src/) fills an `nx × ny` stratified grid of 2D points. -/
def stratified_sample_2d (nx ny : ℕ) (jitter : Bool) (rng : Rng) :
    List (Point2 ℚ) × Rng :=
  stratified2dFrom 0 0 nx ny (nx * ny) jitter rng

/-- Swap the stride-sized blocks at block indices `i` and `j` of a list
(helper for the modelled shuffle; identity outside the two blocks). -/
def blockSwap {α : Type} (l : List α) (stride i j : ℕ) : List α :=
  List.ofFn (fun k : Fin l.length =>
    if stride * i ≤ k.val ∧ k.val < stride * i + stride then
      l.getD (stride * j + (k.val - stride * i)) (l.get k)
    else if stride * j ≤ k.val ∧ k.val < stride * j + stride then
      l.getD (stride * i + (k.val - stride * j)) (l.get k)
    else l.get k)

/-- Modelled from the spec: the Fisher–Yates style loop of `shuffle` in
core/sampling.rs (not under src/): for each block index `i`, draw a bounded
offset and swap block `i` with block `i + offset`. -/
def shuffleFrom {α : Type} (l : List α) (count stride i fuel : ℕ) (rng : Rng) :
    List α × Rng :=
  match fuel with
  | 0 => (l, rng)
  | f + 1 =>
    let o := rng.uniform_uint32_bounded (count - i)
    shuffleFrom (blockSwap l stride i (i + o.1)) count stride (i + 1) f o.2

/-- Modelled from the spec: the in-place shuffle with configurable stride
used to decorrelate dimensions (core/sampling.rs, not under src/). -/
def shuffle {α : Type} (l : List α) (count stride : ℕ) (rng : Rng) :
    List α × Rng :=
  shuffleFrom l count stride 0 count rng

/-- Modelled from the spec: the diagonal initialisation of an `n`-point
Latin-hypercube pattern: point `i` gets jittered coordinates in stratum `i`
on both axes. -/
def lhsInit (i n fuel : ℕ) (rng : Rng) : List (Point2 ℚ) × Rng :=
  match fuel with
  | 0 => ([], rng)
  | f + 1 =>
    let dx := rng.uniform_float
    let dy := dx.2.uniform_float
    let pt : Point2 ℚ :=
      { x := min (((i : ℚ) + dx.1) / (n : ℚ)) oneMinusEpsilon
        y := min (((i : ℚ) + dy.1) / (n : ℚ)) oneMinusEpsilon }
    let rest := lhsInit (i + 1) n f dy.2
    (pt :: rest.1, rest.2)

/-- Modelled from the spec: `latin_hypercube` of core/sampling.rs (not under
src/): generate the diagonal pattern, then permute each axis independently. -/
def latin_hypercube (n : ℕ) (rng : Rng) : List (Point2 ℚ) × Rng :=
  let init := lhsInit 0 n n rng
  let xs := shuffle (init.1.map Point2.x) n 1 init.2
  let ys := shuffle (init.1.map Point2.y) n 1 xs.2
  (List.zipWith (fun a b => Point2.mk a b) xs.1 ys.1, ys.2)

/-- The `StratifiedSampler` struct of src/samplers/stratified.rs, fields in
source order; i32/i64 fields are ℤ, usize fields are ℕ. -/
structure StratifiedSampler where
  samples_per_pixel : ℤ
  x_pixel_samples : ℤ
  y_pixel_samples : ℤ
  jitter_samples : Bool
  samples_1d : List (List ℚ)
  samples_2d : List (List (Point2 ℚ))
  current_1d_dimension : ℤ
  current_2d_dimension : ℤ
  rng : Rng
  current_pixel : Point2 ℤ
  current_pixel_sample_index : ℤ
  samples_1d_array_sizes : List ℤ
  samples_2d_array_sizes : List ℤ
  sample_array_1d : List (List ℚ)
  sample_array_2d : List (List (Point2 ℚ))
  array_1d_offset : ℕ
  array_2d_offset : ℕ

namespace StratifiedSampler

/-- Rust `StratifiedSampler::new`: `samples_per_pixel = x * y`, all cursors at
zero, one zero-filled table of `samples_per_pixel` entries per requested
dimension.  The initial RNG is a parameter (rust uses `Rng::default()`,
whose state lives outside src/). -/
def new (x_pixel_samples y_pixel_samples : ℤ) (jitter_samples : Bool)
    (n_sampled_dimensions : ℤ) (rng : Rng) : StratifiedSampler :=
  { samples_per_pixel := x_pixel_samples * y_pixel_samples
    x_pixel_samples := x_pixel_samples
    y_pixel_samples := y_pixel_samples
    jitter_samples := jitter_samples
    samples_1d := List.replicate n_sampled_dimensions.toNat
      (List.replicate (x_pixel_samples * y_pixel_samples).toNat 0)
    samples_2d := List.replicate n_sampled_dimensions.toNat
      (List.replicate (x_pixel_samples * y_pixel_samples).toNat (Point2.mk 0 0))
    current_1d_dimension := 0
    current_2d_dimension := 0
    rng := rng
    current_pixel := Point2.mk 0 0
    current_pixel_sample_index := 0
    samples_1d_array_sizes := []
    samples_2d_array_sizes := []
    sample_array_1d := []
    sample_array_2d := []
    array_1d_offset := 0
    array_2d_offset := 0 }

/-- The per-dimension regeneration loop of `start_pixel` over the 1D tables:
each table is refilled with `n` stratified scalars and shuffled with
stride 1, threading the RNG through the iterations. -/
def regenTables1d (tables : List (List ℚ)) (n : ℕ) (jitter : Bool)
    (rng : Rng) : List (List ℚ) × Rng :=
  match tables with
  | [] => ([], rng)
  | _t :: ts =>
    let g := stratified_sample_1d n jitter rng
    let sh := shuffle g.1 n 1 g.2
    let rest := regenTables1d ts n jitter sh.2
    (sh.1 :: rest.1, rest.2)

/-- The per-dimension regeneration loop of `start_pixel` over the 2D tables:
each table is refilled with an `nx × ny` stratified grid and shuffled with
stride 1. -/
def regenTables2d (tables : List (List (Point2 ℚ))) (nx ny : ℕ)
    (jitter : Bool) (rng : Rng) : List (List (Point2 ℚ)) × Rng :=
  match tables with
  | [] => ([], rng)
  | _t :: ts =>
    let g := stratified_sample_2d nx ny jitter rng
    let sh := shuffle g.1 (nx * ny) 1 g.2
    let rest := regenTables2d ts nx ny jitter sh.2
    (sh.1 :: rest.1, rest.2)

/-- The inner loop of the 1D array regeneration of `start_pixel`: for each
of the `spp` pixel samples, `count` stratified scalars are generated and
shuffled in that sample's block of the slot's buffer. -/
def regenArray1dSlot (count spp : ℕ) (jitter : Bool) (rng : Rng) :
    List ℚ × Rng :=
  match spp with
  | 0 => ([], rng)
  | j + 1 =>
    let g := stratified_sample_1d count jitter rng
    let sh := shuffle g.1 count 1 g.2
    let rest := regenArray1dSlot count j jitter sh.2
    (sh.1 ++ rest.1, rest.2)

/-- The 1D array regeneration loop of `start_pixel` over the registered
slot sizes. -/
def regenArrays1d (sizes : List ℤ) (spp : ℕ) (jitter : Bool) (rng : Rng) :
    List (List ℚ) × Rng :=
  match sizes with
  | [] => ([], rng)
  | c :: rest =>
    let buf := regenArray1dSlot c.toNat spp jitter rng
    let bufs := regenArrays1d rest spp jitter buf.2
    (buf.1 :: bufs.1, bufs.2)

/-- The inner loop of the 2D array regeneration of `start_pixel`: for each
of the `spp` pixel samples, an independent `count`-point Latin-hypercube
pattern fills that sample's block of the slot's buffer. -/
def regenArray2dSlot (count spp : ℕ) (rng : Rng) : List (Point2 ℚ) × Rng :=
  match spp with
  | 0 => ([], rng)
  | j + 1 =>
    let g := latin_hypercube count rng
    let rest := regenArray2dSlot count j g.2
    (g.1 ++ rest.1, rest.2)

/-- The 2D array regeneration loop of `start_pixel` over the registered
slot sizes. -/
def regenArrays2d (sizes : List ℤ) (spp : ℕ) (rng : Rng) :
    List (List (Point2 ℚ)) × Rng :=
  match sizes with
  | [] => ([], rng)
  | c :: rest =>
    let buf := regenArray2dSlot c.toNat spp rng
    let bufs := regenArrays2d rest spp buf.2
    (buf.1 :: bufs.1, bufs.2)

/-- Rust `StratifiedSampler::start_pixel`: regenerate every 1D/2D dimension
table and every registered array slot for the pixel, then set the current
pixel, reset the sample index to 0 and both array offsets to 0.  (It does
not touch the dimension cursors.) -/
def start_pixel (s : StratifiedSampler) (p : Point2 ℤ) : StratifiedSampler :=
  let n := (s.x_pixel_samples * s.y_pixel_samples).toNat
  let r1 := regenTables1d s.samples_1d n s.jitter_samples s.rng
  let r2 := regenTables2d s.samples_2d s.x_pixel_samples.toNat
    s.y_pixel_samples.toNat s.jitter_samples r1.2
  let r3 := regenArrays1d s.samples_1d_array_sizes s.samples_per_pixel.toNat
    s.jitter_samples r2.2
  let r4 := regenArrays2d s.samples_2d_array_sizes s.samples_per_pixel.toNat r3.2
  { s with
    samples_1d := r1.1
    samples_2d := r2.1
    sample_array_1d := r3.1
    sample_array_2d := r4.1
    rng := r4.2
    current_pixel := p
    current_pixel_sample_index := 0
    array_1d_offset := 0
    array_2d_offset := 0 }

/-- Rust `StratifiedSampler::get_1d`: assert the sample index is in range, then
either dispense the precomputed value of the current 1D dimension table at
the current sample index (advancing the dimension cursor), or fall back to
a fresh RNG draw once the registered dimensions are exhausted. -/
def get_1d (s : StratifiedSampler) : Option (ℚ × StratifiedSampler) :=
  if s.current_pixel_sample_index < s.samples_per_pixel then
    if s.current_1d_dimension < (s.samples_1d.length : ℤ) then
      match (s.samples_1d.get? s.current_1d_dimension.toNat).bind
          (fun tbl => tbl.get? s.current_pixel_sample_index.toNat) with
      | some v =>
        some (v, { s with current_1d_dimension := s.current_1d_dimension + 1 })
      | none => none
    else
      some (s.rng.uniform_float.1, { s with rng := s.rng.uniform_float.2 })
  else none

/-- Rust `StratifiedSampler::get_2d`: as `get_1d` over the 2D tables; the RNG
fallback draws the second (y) component before the first (x) component. -/
def get_2d (s : StratifiedSampler) : Option (Point2 ℚ × StratifiedSampler) :=
  if s.current_pixel_sample_index < s.samples_per_pixel then
    if s.current_2d_dimension < (s.samples_2d.length : ℤ) then
      match (s.samples_2d.get? s.current_2d_dimension.toNat).bind
          (fun tbl => tbl.get? s.current_pixel_sample_index.toNat) with
      | some v =>
        some (v, { s with current_2d_dimension := s.current_2d_dimension + 1 })
      | none => none
    else
      let y := s.rng.uniform_float
      let x := y.2.uniform_float
      some (Point2.mk x.1 y.1, { s with rng := x.2 })
  else none

/-- Rust `StratifiedSampler::round_count`: the identity on the stratified
variant. -/
def round_count (_s : StratifiedSampler) (count : ℤ) : ℤ := count

/-- Rust `StratifiedSampler::request_2d_array`: assert `round_count n = n`
(always true here), append `n` to the registered 2D sizes and allocate a
zero-filled buffer of `n * samples_per_pixel` points. -/
def request_2d_array (s : StratifiedSampler) (n : ℤ) :
    Option StratifiedSampler :=
  if s.round_count n = n then
    some { s with
      samples_2d_array_sizes := s.samples_2d_array_sizes ++ [n]
      sample_array_2d := s.sample_array_2d ++
        [List.replicate (n * s.samples_per_pixel).toNat (Point2.mk 0 0)] }
  else none

/-- Rust `StratifiedSampler::get_2d_array`: return the no-more-arrays signal
(inner `none`) once the array cursor has consumed every slot; otherwise
assert the requested size matches the next registered size and the sample
index is in range, and return the current sample's `n`-point slice of the
next slot, advancing the array cursor. -/
def get_2d_array (s : StratifiedSampler) (n : ℤ) :
    Option (Option (List (Point2 ℚ)) × StratifiedSampler) :=
  if s.array_2d_offset = s.sample_array_2d.length then some (none, s)
  else
    match s.samples_2d_array_sizes.get? s.array_2d_offset with
    | none => none
    | some sz =>
      if sz = n then
        if s.current_pixel_sample_index < s.samples_per_pixel then
          match s.sample_array_2d.get? s.array_2d_offset with
          | none => none
          | some buf =>
            if (s.current_pixel_sample_index * n).toNat + n.toNat ≤
                buf.length then
              some (some
                ((buf.drop ((s.current_pixel_sample_index * n).toNat)).take
                  n.toNat),
                { s with array_2d_offset := s.array_2d_offset + 1 })
            else none
        else none
      else none

/-- Rust `StratifiedSampler::get_2d_arrays`: consume one slot exactly as
`get_2d_array`; if that was the last slot, return `(none, none)` (the
consumed slice is discarded); otherwise consume a second slot under the
same assertions and return both slices. -/
def get_2d_arrays (s : StratifiedSampler) (n : ℤ) :
    Option ((Option (List (Point2 ℚ)) × Option (List (Point2 ℚ))) ×
      StratifiedSampler) :=
  if s.array_2d_offset = s.sample_array_2d.length then some ((none, none), s)
  else
    match s.samples_2d_array_sizes.get? s.array_2d_offset with
    | none => none
    | some sz =>
      if sz = n then
        if s.current_pixel_sample_index < s.samples_per_pixel then
          match s.sample_array_2d.get? s.array_2d_offset with
          | none => none
          | some buf =>
            let start := (s.current_pixel_sample_index * n).toNat
            if start + n.toNat ≤ buf.length then
              let ret1 := (buf.drop start).take n.toNat
              let s1 : StratifiedSampler :=
                { s with array_2d_offset := s.array_2d_offset + 1 }
              if s1.array_2d_offset = s1.sample_array_2d.length then
                some ((none, none), s1)
              else
                match s1.samples_2d_array_sizes.get? s1.array_2d_offset with
                | none => none
                | some sz2 =>
                  if sz2 = n then
                    if s1.current_pixel_sample_index < s1.samples_per_pixel then
                      match s1.sample_array_2d.get? s1.array_2d_offset with
                      | none => none
                      | some buf2 =>
                        let start2 := (s1.current_pixel_sample_index * n).toNat
                        if start2 + n.toNat ≤ buf2.length then
                          let ret2 := (buf2.drop start2).take n.toNat
                          some ((some ret1, some ret2),
                            { s1 with array_2d_offset := s1.array_2d_offset + 1 })
                        else none
                    else none
                  else none
            else none
        else none
      else none

/-- Rust `StratifiedSampler::start_next_sample`: reset both dimension cursors
and both array offsets to 0, increment the sample index, and return
whether the incremented index is still below `samples_per_pixel`. -/
def start_next_sample (s : StratifiedSampler) : Bool × StratifiedSampler :=
  let t : StratifiedSampler :=
    { s with
      current_1d_dimension := 0
      current_2d_dimension := 0
      array_1d_offset := 0
      array_2d_offset := 0
      current_pixel_sample_index := s.current_pixel_sample_index + 1 }
  (decide (t.current_pixel_sample_index < t.samples_per_pixel), t)

/-- The operation `start_next_sample` iterated `k` times (driver loop helper): the state
after `k` successive pixel-sample advances. -/
def iterate_next (s : StratifiedSampler) : ℕ → StratifiedSampler
  | 0 => s
  | k + 1 => iterate_next s.start_next_sample.2 k

/-- One driver round of the per-pixel array-consumption scenario:
dispense the 2D array for the current sample, then advance to the next
pixel sample. -/
def roundStep (n : ℤ) (s : StratifiedSampler) : Option StratifiedSampler :=
  (s.get_2d_array n).bind (fun r => some r.2.start_next_sample.2)

/-- Runs `k` driver rounds of the per-pixel array-consumption scenario. -/
def runRounds (n : ℤ) (s : StratifiedSampler) : ℕ → Option StratifiedSampler
  | 0 => some s
  | k + 1 => (runRounds n s k).bind (roundStep n)

end StratifiedSampler

/-- A concrete RNG stream used by witness states. -/
def rngW : Rng :=
  { floats := fun k => (k : ℚ) + 2, nats := fun k => k, idx := 0 }

/-- A concrete well-formed sampler state used by witness statements:
2 samples per pixel, one precomputed 1D and one 2D dimension table, and
two registered 2D array slots of size 1, positioned at the start of the
first pixel sample. -/
def samplerW : StratifiedSampler :=
  { samples_per_pixel := 2
    x_pixel_samples := 2
    y_pixel_samples := 1
    jitter_samples := false
    samples_1d := [[4, 7]]
    samples_2d := [[Point2.mk 1 2, Point2.mk 3 4]]
    current_1d_dimension := 0
    current_2d_dimension := 0
    rng := rngW
    current_pixel := Point2.mk 0 0
    current_pixel_sample_index := 0
    samples_1d_array_sizes := []
    samples_2d_array_sizes := [1, 1]
    sample_array_1d := []
    sample_array_2d := [[Point2.mk 5 6, Point2.mk 7 8],
      [Point2.mk 9 10, Point2.mk 11 12]]
    array_1d_offset := 0
    array_2d_offset := 0 }

/-- The state `samplerW` with the sample index already advanced to
`samples_per_pixel`, with unconsumed array slots remaining. -/
def samplerWEnd : StratifiedSampler :=
  { samplerW with current_pixel_sample_index := 2 }

/-- A sampler with no registered arrays whose sample index has reached
`samples_per_pixel`. -/
def samplerWEmptyEnd : StratifiedSampler :=
  { samplerW with
    samples_2d_array_sizes := []
    sample_array_2d := []
    current_pixel_sample_index := 2 }

/-- The state `samplerW` with both dimension cursors past the single precomputed
dimension table, forcing the RNG fallback. -/
def samplerWFallback : StratifiedSampler :=
  { samplerW with current_1d_dimension := 1, current_2d_dimension := 1 }

/-- The state `samplerW` restricted to a single registered 2D array slot. -/
def samplerWOneSlot : StratifiedSampler :=
  { samplerW with
    samples_2d_array_sizes := [1]
    sample_array_2d := [[Point2.mk 5 6, Point2.mk 7 8]] }

/-!
Light embedding (src/lights/point.rs), over ℝ.
-/

/-- Rust `Vector3f = Vector3<Float>` from core/geometry.rs, over ℝ. -/
structure Vector3f where
  x : ℝ
  y : ℝ
  z : ℝ

/-- Rust `Point3f = Point3<Float>` from core/geometry.rs, over ℝ. -/
structure Point3f where
  x : ℝ
  y : ℝ
  z : ℝ

/-- Rust `Normal3f = Normal3<Float>` from core/geometry.rs, over ℝ. -/
structure Normal3f where
  x : ℝ
  y : ℝ
  z : ℝ

/-- Componentwise `Point3f - Point3f -> Vector3f` (core/geometry.rs). -/
def Point3f.sub (p q : Point3f) : Vector3f :=
  { x := p.x - q.x, y := p.y - q.y, z := p.z - q.z }

/-- Rust `Vector3f::length_squared` (core/geometry.rs). -/
def Vector3f.length_squared (v : Vector3f) : ℝ :=
  v.x * v.x + v.y * v.y + v.z * v.z

/-- Rust `Vector3f::length` (core/geometry.rs). -/
noncomputable def Vector3f.length (v : Vector3f) : ℝ :=
  Real.sqrt v.length_squared

/-- Rust `Vector3f::normalize`: the vector divided componentwise by its
length (core/geometry.rs). -/
noncomputable def Vector3f.normalize (v : Vector3f) : Vector3f :=
  { x := v.x / v.length, y := v.y / v.length, z := v.z / v.length }

/-- Rust `pnt3_distance_squared` (core/geometry.rs): squared length of the
difference vector. -/
def pnt3_distance_squared (p1 p2 : Point3f) : ℝ :=
  (p1.sub p2).length_squared

/-- Modelled from the spec: `Spectrum` (core/pbrt.rs, not under src/) is an
opaque radiance value; modelled as a single real scalar, on which the
scalar division and multiplication used by the point light act directly. -/
abbrev Spectrum := ℝ

/-- Modelled from the spec: `MediumInterface` (core/medium.rs, not under
src/) is an optional inside/outside pair of opaque shared medium
references. -/
structure MediumInterface where
  inside : Option Unit
  outside : Option Unit
  deriving DecidableEq

/-- Rust `InteractionCommon` (core/interaction.rs, not under src/): modelled
from the spec as a world point, a time, an error bound, an outgoing
direction, a normal, and an optional medium override. -/
structure InteractionCommon where
  p : Point3f
  time : ℝ
  p_error : Vector3f
  wo : Vector3f
  n : Normal3f
  medium_interface : Option Unit

/-- Rust `VisibilityTester` (core/light.rs, not under src/): modelled from the
spec as exactly two interaction endpoints. -/
structure VisibilityTester where
  p0 : InteractionCommon
  p1 : InteractionCommon

/-- Rust `Ray` (core/geometry.rs, not under src/): origin, direction, extent,
time, optional differential and medium.  `t_max` is an extended real so
that the f32 infinity stored by `sample_le` has an exact model. -/
structure Ray where
  o : Point3f
  d : Vector3f
  t_max : EReal
  time : ℝ
  differential : Option Unit
  medium : Option Unit

/-- Modelled from the spec: `uniform_sample_sphere` (core/sampling.rs, not
under src/) maps a 2D random value to a uniformly distributed direction on
the full sphere. -/
noncomputable def uniform_sample_sphere (u : Point2 ℝ) : Vector3f :=
  let z := 1 - 2 * u.x
  let r := Real.sqrt (max 0 (1 - z * z))
  let phi := 2 * Real.pi * u.y
  { x := r * Real.cos phi, y := r * Real.sin phi, z := z }

/-- Modelled from the spec: `uniform_sphere_pdf` (core/sampling.rs, not
under src/) is the constant density of the uniform distribution on the
unit sphere. -/
noncomputable def uniform_sphere_pdf : ℝ := 1 / (4 * Real.pi)

/-- The `PointLight` struct of src/lights/point.rs, fields in source
order. -/
structure PointLight where
  p_light : Point3f
  i : Spectrum
  flags : ℕ
  n_samples : ℤ
  medium_interface : MediumInterface

namespace PointLight

/-- The out-parameters and return value of
`PointLight::sample_li` gathered into one record. -/
structure SampleLiResult where
  wi : Vector3f
  pdf : ℝ
  vis : VisibilityTester
  radiance : Spectrum

/-- Rust `PointLight::sample_li` (src/lights/point.rs): normalized direction to
the light, pdf 1, a visibility tester copying the shading interaction and
a synthetic interaction at the light, and intensity over squared
distance. -/
noncomputable def sample_li (l : PointLight) (iref : InteractionCommon)
    (_u : Point2 ℝ) : SampleLiResult :=
  { wi := (l.p_light.sub iref.p).normalize
    pdf := 1
    vis :=
      { p0 :=
          { p := iref.p
            time := iref.time
            p_error := iref.p_error
            wo := iref.wo
            n := iref.n
            medium_interface := none }
        p1 :=
          { p := l.p_light
            time := iref.time
            p_error := Vector3f.mk 0 0 0
            wo := Vector3f.mk 0 0 0
            n := Normal3f.mk 0 0 0
            medium_interface := none } }
    radiance := l.i / pnt3_distance_squared l.p_light iref.p }

/-- Rust `PointLight::power` (src/lights/point.rs). -/
noncomputable def power (l : PointLight) : Spectrum :=
  l.i * (4 * Real.pi)

/-- Rust `PointLight::le` (src/lights/point.rs): zero for escaping rays. -/
def le (_l : PointLight) (_ray : Ray) : Spectrum := 0

/-- Rust `PointLight::pdf_li` (src/lights/point.rs): constantly zero.  (The
rust argument is a `&dyn Interaction` trait object; its common data is
what the model passes.) -/
def pdf_li (_l : PointLight) (_iref : InteractionCommon)
    (_wi : Vector3f) : ℝ := 0

/-- The out-parameters and return value of `PointLight::sample_le`
gathered into one record. -/
structure SampleLeResult where
  ray : Ray
  n_light : Normal3f
  pdf_pos : ℝ
  pdf_dir : ℝ
  radiance : Spectrum

/-- Rust `PointLight::sample_le` (src/lights/point.rs): a ray from the light
position in a uniformly sampled direction with unlimited extent,
`pdf_pos = 1`, `pdf_dir` the uniform-sphere density, intensity returned
unmodified. -/
noncomputable def sample_le (l : PointLight) (u1 : Point2 ℝ)
    (_u2 : Point2 ℝ) (time : ℝ) : SampleLeResult :=
  let d := uniform_sample_sphere u1
  { ray :=
      { o := l.p_light
        d := d
        t_max := (⊤ : EReal)
        time := time
        differential := none
        medium := none }
    n_light := Normal3f.mk d.x d.y d.z
    pdf_pos := 1
    pdf_dir := uniform_sphere_pdf
    radiance := l.i }

/-- Rust `PointLight::pdf_le` (src/lights/point.rs): `(pdf_pos, pdf_dir) =
(0, uniform_sphere_pdf)` for every ray and normal. -/
noncomputable def pdf_le (_l : PointLight) (_ray : Ray)
    (_n_light : Normal3f) : ℝ × ℝ :=
  (0, uniform_sphere_pdf)

end PointLight

/-!
Supporting lemmas for the light theorems.
-/

lemma vector3f_length_squared_nonneg (v : Vector3f) : 0 ≤ v.length_squared := by
  have hx := mul_self_nonneg v.x
  have hy := mul_self_nonneg v.y
  have hz := mul_self_nonneg v.z
  unfold Vector3f.length_squared
  linarith

lemma vector3f_length_squared_eq_zero (v : Vector3f)
    (h : v.length_squared = 0) : v.x = 0 ∧ v.y = 0 ∧ v.z = 0 := by
  have hx := mul_self_nonneg v.x
  have hy := mul_self_nonneg v.y
  have hz := mul_self_nonneg v.z
  unfold Vector3f.length_squared at h
  refine ⟨mul_self_eq_zero.mp ?_, mul_self_eq_zero.mp ?_, mul_self_eq_zero.mp ?_⟩
  · linarith
  · linarith
  · linarith

lemma vector3f_normalize_length (v : Vector3f)
    (h : v.length_squared ≠ 0) : v.normalize.length = 1 := by
  have hS : 0 ≤ v.length_squared := vector3f_length_squared_nonneg v
  have hSpos : 0 < v.length_squared := lt_of_le_of_ne hS (Ne.symm h)
  have hLpos : 0 < v.length := Real.sqrt_pos.mpr hSpos
  have hLne : v.length ≠ 0 := ne_of_gt hLpos
  have hLL : v.length * v.length = v.length_squared :=
    Real.mul_self_sqrt hS
  have h1 : v.normalize.length_squared = 1 := by
    unfold Vector3f.normalize Vector3f.length_squared at *
    field_simp
    linarith
  unfold Vector3f.length
  rw [h1]
  exact Real.sqrt_one

lemma point3f_sub_length_squared_ne_zero (p q : Point3f) (h : q ≠ p) :
    (p.sub q).length_squared ≠ 0 := by
  intro h0
  obtain ⟨hx, hy, hz⟩ := vector3f_length_squared_eq_zero _ h0
  apply h
  cases p
  cases q
  simp only [Point3f.sub] at hx hy hz
  simp only [Point3f.mk.injEq]
  exact ⟨(sub_eq_zero.mp hx).symm, (sub_eq_zero.mp hy).symm,
    (sub_eq_zero.mp hz).symm⟩

/-!
Claim theorems for the point light.
-/

/-- C1: for a point light with intensity `I` at `P` and a shading
interaction at `Q ≠ P`, `sample_li` writes the unit-length normalized
direction from `Q` toward `P` into `wi`, sets `pdf = 1`, returns radiance
exactly `I` divided by the squared distance between `P` and `Q`, and
builds a visibility tester whose first endpoint copies the shading
interaction's point, time, error bound, outgoing direction and normal
(with no medium override), and whose second endpoint lies at `P` with
zero error bound, zero outgoing direction, zero normal and no medium
override. -/
theorem claim_C1_point_sample_li (l : PointLight) (iref : InteractionCommon)
    (u : Point2 ℝ) (h : iref.p ≠ l.p_light) :
    (l.sample_li iref u).wi = (l.p_light.sub iref.p).normalize ∧
    (l.sample_li iref u).wi.length = 1 ∧
    (l.sample_li iref u).pdf = 1 ∧
    (l.sample_li iref u).radiance =
      l.i / ((l.p_light.x - iref.p.x) * (l.p_light.x - iref.p.x) +
        (l.p_light.y - iref.p.y) * (l.p_light.y - iref.p.y) +
        (l.p_light.z - iref.p.z) * (l.p_light.z - iref.p.z)) ∧
    (l.sample_li iref u).vis.p0.p = iref.p ∧
    (l.sample_li iref u).vis.p0.time = iref.time ∧
    (l.sample_li iref u).vis.p0.p_error = iref.p_error ∧
    (l.sample_li iref u).vis.p0.wo = iref.wo ∧
    (l.sample_li iref u).vis.p0.n = iref.n ∧
    (l.sample_li iref u).vis.p0.medium_interface = none ∧
    (l.sample_li iref u).vis.p1.p = l.p_light ∧
    (l.sample_li iref u).vis.p1.time = iref.time ∧
    (l.sample_li iref u).vis.p1.p_error = Vector3f.mk 0 0 0 ∧
    (l.sample_li iref u).vis.p1.wo = Vector3f.mk 0 0 0 ∧
    (l.sample_li iref u).vis.p1.n = Normal3f.mk 0 0 0 ∧
    (l.sample_li iref u).vis.p1.medium_interface = none := by
  refine ⟨rfl, ?_, rfl, rfl, rfl, rfl, rfl, rfl, rfl, rfl, rfl, rfl, rfl,
    rfl, rfl, rfl⟩
  exact vector3f_normalize_length _ (point3f_sub_length_squared_ne_zero _ _ h)

/-- Concrete instances for the C1 witness. -/
noncomputable def pointLightW : PointLight :=
  { p_light := Point3f.mk 2 0 0
    i := 8
    flags := 1
    n_samples := 1
    medium_interface := { inside := none, outside := none } }

/-- Concrete shading interaction for the C1 witness. -/
noncomputable def irefW : InteractionCommon :=
  { p := Point3f.mk 0 0 0
    time := 3
    p_error := Vector3f.mk 0 0 0
    wo := Vector3f.mk 1 0 0
    n := Normal3f.mk 0 1 0
    medium_interface := none }

/-- C1 witness: the hypothesis `Q ≠ P` holds at the concrete light and
interaction above, and the instantiated conclusion follows. -/
theorem claim_C1_point_sample_li_witness :
    irefW.p ≠ pointLightW.p_light ∧
    ((pointLightW.sample_li irefW (Point2.mk 0 0)).wi.length = 1 ∧
      (pointLightW.sample_li irefW (Point2.mk 0 0)).pdf = 1) := by
  have hne : irefW.p ≠ pointLightW.p_light := by
    simp only [irefW, pointLightW, ne_eq, Point3f.mk.injEq]
    norm_num
  exact ⟨hne, (claim_C1_point_sample_li pointLightW irefW (Point2.mk 0 0)
    hne).2.1, (claim_C1_point_sample_li pointLightW irefW (Point2.mk 0 0)
    hne).2.2.1⟩

/-- C8: for every point light, `pdf_li` returns 0 for every interaction
and every direction, unconditionally. -/
theorem claim_C8_point_pdf_li_zero (l : PointLight)
    (iref : InteractionCommon) (wi : Vector3f) :
    l.pdf_li iref wi = 0 := rfl

/-- C9: `sample_le` returns a ray with origin at the light position,
direction the uniform-sphere mapping of the first 2D random value,
unlimited extent and the given time; sets the returned normal to that
direction, `pdf_pos = 1` and `pdf_dir` to the uniform-sphere density
(1 over 4π); and returns the intensity unmodified.  `pdf_le` reports
`pdf_pos = 0` and `pdf_dir` the uniform-sphere density. -/
theorem claim_C9_point_sample_le_pdf_le (l : PointLight)
    (u1 u2 : Point2 ℝ) (time : ℝ) (ray : Ray) (n_light : Normal3f) :
    (l.sample_le u1 u2 time).ray.o = l.p_light ∧
    (l.sample_le u1 u2 time).ray.d = uniform_sample_sphere u1 ∧
    (l.sample_le u1 u2 time).ray.t_max = (⊤ : EReal) ∧
    (l.sample_le u1 u2 time).ray.time = time ∧
    (l.sample_le u1 u2 time).n_light =
      Normal3f.mk (uniform_sample_sphere u1).x (uniform_sample_sphere u1).y
        (uniform_sample_sphere u1).z ∧
    (l.sample_le u1 u2 time).pdf_pos = 1 ∧
    (l.sample_le u1 u2 time).pdf_dir = uniform_sphere_pdf ∧
    (l.sample_le u1 u2 time).pdf_dir = 1 / (4 * Real.pi) ∧
    (l.sample_le u1 u2 time).radiance = l.i ∧
    l.pdf_le ray n_light = (0, uniform_sphere_pdf) :=
  ⟨rfl, rfl, rfl, rfl, rfl, rfl, rfl, rfl, rfl, rfl⟩

/-!
Sampler lemmas and claim theorems.
-/

lemma iterate_next_samples_per_pixel (s : StratifiedSampler) (k : ℕ) :
    (s.iterate_next k).samples_per_pixel = s.samples_per_pixel := by
  induction k generalizing s with
  | zero => rfl
  | succ k ih =>
    rw [StratifiedSampler.iterate_next]
    exact ih _

lemma iterate_next_index (s : StratifiedSampler) (k : ℕ) :
    (s.iterate_next k).current_pixel_sample_index =
      s.current_pixel_sample_index + (k : ℤ) := by
  induction k generalizing s with
  | zero => simp [StratifiedSampler.iterate_next]
  | succ k ih =>
    rw [StratifiedSampler.iterate_next]
    rw [ih]
    have h : s.start_next_sample.2.current_pixel_sample_index =
        s.current_pixel_sample_index + 1 := rfl
    rw [h]
    push_cast
    ring

/-- C2: `start_next_sample` resets both dimension cursors and both array
cursors to 0, increments the sample index, and returns true iff the
incremented index is still below `samples_per_pixel`; consequently the
`(k+1)`-st advance after `start_pixel` returns true iff `k + 1 <
samples_per_pixel`, i.e. true exactly `samples_per_pixel - 1` times and
then false on the call that would advance past the last sample. -/
theorem claim_C2_start_next_sample (s : StratifiedSampler) (p : Point2 ℤ)
    (k : ℕ) :
    (s.start_next_sample.2.current_1d_dimension = 0 ∧
      s.start_next_sample.2.current_2d_dimension = 0 ∧
      s.start_next_sample.2.array_1d_offset = 0 ∧
      s.start_next_sample.2.array_2d_offset = 0 ∧
      s.start_next_sample.2.current_pixel_sample_index =
        s.current_pixel_sample_index + 1 ∧
      (s.start_next_sample.1 = true ↔
        s.current_pixel_sample_index + 1 < s.samples_per_pixel)) ∧
    (((s.start_pixel p).iterate_next k).start_next_sample.1 = true ↔
      (k : ℤ) + 1 < s.samples_per_pixel) := by
  constructor
  · refine ⟨rfl, rfl, rfl, rfl, rfl, ?_⟩
    simp only [StratifiedSampler.start_next_sample, decide_eq_true_eq]
  · have h1 := iterate_next_samples_per_pixel (s.start_pixel p) k
    have h2 := iterate_next_index (s.start_pixel p) k
    have h3 : (s.start_pixel p).current_pixel_sample_index = 0 := rfl
    have h4 : (s.start_pixel p).samples_per_pixel = s.samples_per_pixel := rfl
    simp only [StratifiedSampler.start_next_sample, decide_eq_true_eq]
    omega

/-- C4 counterexample: the claim says a `request_2d_array` call made after
rendering has started (after `start_pixel`) fails fast; on the code it is
silently accepted: at the concrete sampler below, freshly constructed and
already started on a pixel, the request still succeeds. -/
theorem claim_C4_counterexample :
    ((StratifiedSampler.new 1 1 false 0 rngW).start_pixel
      (Point2.mk 0 0)).request_2d_array 2 ≠ none := by
  simp [StratifiedSampler.request_2d_array, StratifiedSampler.round_count]

/-- C4 (amended): `request_2d_array n` appends `n` to the registered 2D
array sizes and allocates backing storage of `n * samples_per_pixel`
points; the call is accepted unconditionally — its only assertion,
`round_count n = n`, always holds because `round_count` is the identity,
and nothing checks whether rendering has started. -/
theorem claim_C4_request_2d_array (s : StratifiedSampler) (n : ℤ) :
    ∃ s', s.request_2d_array n = some s' ∧
      s'.samples_2d_array_sizes = s.samples_2d_array_sizes ++ [n] ∧
      s'.sample_array_2d = s.sample_array_2d ++
        [List.replicate (n * s.samples_per_pixel).toNat (Point2.mk 0 0)] ∧
      s'.sample_array_2d.length = s.sample_array_2d.length + 1 := by
  have h : s.request_2d_array n = some { s with
      samples_2d_array_sizes := s.samples_2d_array_sizes ++ [n]
      sample_array_2d := s.sample_array_2d ++
        [List.replicate (n * s.samples_per_pixel).toNat (Point2.mk 0 0)] } := by
    simp [StratifiedSampler.request_2d_array, StratifiedSampler.round_count]
  exact ⟨_, h, rfl, rfl, by simp⟩

/-- C5 counterexample: the claim says every `get_2d_array` call made with
the sample index at or past `samples_per_pixel` aborts with a fault; on
the code, when the array cursor has consumed every slot (here: no slots
are registered at all), the exhausted-arrays early return fires first and
the call returns the no-more-arrays signal without any fault, even though
the sample index is out of range. -/
theorem claim_C5_counterexample :
    samplerWEmptyEnd.samples_per_pixel ≤
      samplerWEmptyEnd.current_pixel_sample_index ∧
    samplerWEmptyEnd.get_2d_array 1 = some (none, samplerWEmptyEnd) :=
  ⟨by decide, rfl⟩

/-- C5 (amended): `get_1d` and `get_2d` abort whenever the sample index is
at or past `samples_per_pixel`; `get_2d_array` aborts on an out-of-range
sample index or a size mismatching the next registered size only when
unconsumed array slots remain — once the array cursor has consumed every
slot it instead returns the no-more-arrays signal without a fault. -/
theorem claim_C5_precondition_aborts (s : StratifiedSampler) (n : ℤ) :
    (s.samples_per_pixel ≤ s.current_pixel_sample_index →
      s.get_1d = none) ∧
    (s.samples_per_pixel ≤ s.current_pixel_sample_index →
      s.get_2d = none) ∧
    (s.array_2d_offset ≠ s.sample_array_2d.length →
      s.samples_per_pixel ≤ s.current_pixel_sample_index →
      s.get_2d_array n = none) ∧
    (∀ sz, s.array_2d_offset ≠ s.sample_array_2d.length →
      s.samples_2d_array_sizes.get? s.array_2d_offset = some sz → sz ≠ n →
      s.get_2d_array n = none) ∧
    (s.array_2d_offset = s.sample_array_2d.length →
      s.get_2d_array n = some (none, s)) := by
  refine ⟨?_, ?_, ?_, ?_, ?_⟩
  · intro h
    simp [StratifiedSampler.get_1d, not_lt.mpr h]
  · intro h
    simp [StratifiedSampler.get_2d, not_lt.mpr h]
  · intro hoff hidx
    unfold StratifiedSampler.get_2d_array
    rw [if_neg hoff]
    split
    · rfl
    next sz hsz =>
      by_cases hszn : sz = n
      · rw [if_pos hszn, if_neg (not_lt.mpr hidx)]
      · rw [if_neg hszn]
  · intro sz hoff hsz hszn
    unfold StratifiedSampler.get_2d_array
    rw [if_neg hoff, hsz]
    simp only [if_neg hszn]
  · intro h
    unfold StratifiedSampler.get_2d_array
    rw [if_pos h]

/-- C5 witness: the amended behavior, instantiated at concrete states:
an out-of-range sample index makes `get_1d`, `get_2d` and (with slots
remaining) `get_2d_array` abort; a mismatched size makes `get_2d_array`
abort; and with every slot consumed `get_2d_array` returns the
no-more-arrays signal. -/
theorem claim_C5_precondition_aborts_witness :
    (samplerWEnd.samples_per_pixel ≤
        samplerWEnd.current_pixel_sample_index ∧
      samplerWEnd.get_1d = none ∧
      samplerWEnd.get_2d = none ∧
      samplerWEnd.array_2d_offset ≠ samplerWEnd.sample_array_2d.length ∧
      samplerWEnd.get_2d_array 1 = none) ∧
    (samplerW.samples_2d_array_sizes.get? samplerW.array_2d_offset =
        some 1 ∧ (1 : ℤ) ≠ 3 ∧ samplerW.get_2d_array 3 = none) ∧
    ({ samplerW with array_2d_offset := 2 } :
        StratifiedSampler).get_2d_array 1 =
      some (none, { samplerW with array_2d_offset := 2 }) := by
  refine ⟨⟨by decide, ?_, ?_, by decide, ?_⟩, ⟨by decide, by decide, ?_⟩, ?_⟩
  · exact (claim_C5_precondition_aborts samplerWEnd 1).1 (by decide)
  · exact (claim_C5_precondition_aborts samplerWEnd 1).2.1 (by decide)
  · exact (claim_C5_precondition_aborts samplerWEnd 1).2.2.1 (by decide)
      (by decide)
  · exact (claim_C5_precondition_aborts samplerW 3).2.2.2.1 1 (by decide)
      (by decide) (by decide)
  · exact (claim_C5_precondition_aborts
      { samplerW with array_2d_offset := 2 } 1).2.2.2.2 (by decide)

/-- C6: with the 1D dimension cursor below the number of precomputed 1D
tables, `get_1d` dispenses the precomputed value at (current dimension,
current sample index) and advances the 1D dimension cursor; once the
registered dimensions are exhausted it instead returns a fresh RNG draw
(not an error); `get_2d` behaves analogously over the 2D tables, and its
RNG fallback draws the second (y) component of the returned point from
the RNG before the first (x) component. -/
theorem claim_C6_get_1d_get_2d (s : StratifiedSampler) :
    (∀ tbl v, s.current_pixel_sample_index < s.samples_per_pixel →
      s.current_1d_dimension < (s.samples_1d.length : ℤ) →
      s.samples_1d.get? s.current_1d_dimension.toNat = some tbl →
      tbl.get? s.current_pixel_sample_index.toNat = some v →
      s.get_1d = some (v,
        { s with current_1d_dimension := s.current_1d_dimension + 1 })) ∧
    (s.current_pixel_sample_index < s.samples_per_pixel →
      (s.samples_1d.length : ℤ) ≤ s.current_1d_dimension →
      s.get_1d = some (s.rng.floats s.rng.idx,
        { s with rng := { s.rng with idx := s.rng.idx + 1 } })) ∧
    (∀ tbl w, s.current_pixel_sample_index < s.samples_per_pixel →
      s.current_2d_dimension < (s.samples_2d.length : ℤ) →
      s.samples_2d.get? s.current_2d_dimension.toNat = some tbl →
      tbl.get? s.current_pixel_sample_index.toNat = some w →
      s.get_2d = some (w,
        { s with current_2d_dimension := s.current_2d_dimension + 1 })) ∧
    (s.current_pixel_sample_index < s.samples_per_pixel →
      (s.samples_2d.length : ℤ) ≤ s.current_2d_dimension →
      s.get_2d = some (Point2.mk (s.rng.floats (s.rng.idx + 1))
          (s.rng.floats s.rng.idx),
        { s with rng := { s.rng with idx := s.rng.idx + 1 + 1 } })) := by
  refine ⟨?_, ?_, ?_, ?_⟩
  · intro tbl v hidx hlt htbl hv
    rw [List.get?_eq_getElem?] at htbl hv
    simp [StratifiedSampler.get_1d, hidx, hlt, htbl, hv]
  · intro hidx hge
    simp [StratifiedSampler.get_1d, hidx, not_lt.mpr hge, Rng.uniform_float]
  · intro tbl w hidx hlt htbl hw
    rw [List.get?_eq_getElem?] at htbl hw
    simp [StratifiedSampler.get_2d, hidx, hlt, htbl, hw]
  · intro hidx hge
    simp [StratifiedSampler.get_2d, hidx, not_lt.mpr hge, Rng.uniform_float]

/-- C6 witness: at the concrete state `samplerW` the precomputed arms
dispense the first table entries, and at `samplerWFallback` (cursors past
the single registered dimension) both fallbacks draw from the RNG stream,
the 2D one drawing its y component first. -/
theorem claim_C6_get_1d_get_2d_witness :
    (samplerW.current_pixel_sample_index < samplerW.samples_per_pixel ∧
      samplerW.get_1d = some (4,
        { samplerW with current_1d_dimension := 1 }) ∧
      samplerW.get_2d = some (Point2.mk 1 2,
        { samplerW with current_2d_dimension := 1 })) ∧
    ((samplerWFallback.samples_1d.length : ℤ) ≤
        samplerWFallback.current_1d_dimension ∧
      samplerWFallback.get_1d = some (samplerWFallback.rng.floats
          samplerWFallback.rng.idx,
        { samplerWFallback with rng :=
          { samplerWFallback.rng with idx := samplerWFallback.rng.idx + 1 } }) ∧
      samplerWFallback.get_2d = some (Point2.mk
          (samplerWFallback.rng.floats (samplerWFallback.rng.idx + 1))
          (samplerWFallback.rng.floats samplerWFallback.rng.idx),
        { samplerWFallback with rng := { samplerWFallback.rng with
          idx := samplerWFallback.rng.idx + 1 + 1 } })) := by
  refine ⟨⟨by decide, ?_, ?_⟩, ⟨by decide, ?_, ?_⟩⟩
  · exact (claim_C6_get_1d_get_2d samplerW).1 [4, 7] 4
      (by decide) (by decide) (by decide) (by decide)
  · exact (claim_C6_get_1d_get_2d samplerW).2.2.1
      [Point2.mk 1 2, Point2.mk 3 4]
      (Point2.mk 1 2) (by decide) (by decide) (by decide)
      (by decide)
  · exact (claim_C6_get_1d_get_2d samplerWFallback).2.1 (by decide)
      (by decide)
  · exact (claim_C6_get_1d_get_2d samplerWFallback).2.2.2 (by decide)
      (by decide)

/-- C7: across `start_pixel`, `get_1d`, `get_2d`, `get_2d_array` and
`start_next_sample`, the dimension cursors and array cursors are set to
zero by the pixel-sample advance (`start_next_sample`) and by no
dispensing or array-access operation (those only ever leave cursors
unchanged or advance them), while `start_pixel` resets the pixel
coordinate, the sample index to 0, and both array cursors to 0. -/
theorem claim_C7_cursor_reset_discipline (s : StratifiedSampler)
    (p : Point2 ℤ) (n : ℤ) :
    (s.start_next_sample.2.current_1d_dimension = 0 ∧
      s.start_next_sample.2.current_2d_dimension = 0 ∧
      s.start_next_sample.2.array_1d_offset = 0 ∧
      s.start_next_sample.2.array_2d_offset = 0) ∧
    (∀ v s', s.get_1d = some (v, s') →
      s.current_1d_dimension ≤ s'.current_1d_dimension ∧
      s.current_2d_dimension ≤ s'.current_2d_dimension ∧
      s.array_1d_offset ≤ s'.array_1d_offset ∧
      s.array_2d_offset ≤ s'.array_2d_offset) ∧
    (∀ w s', s.get_2d = some (w, s') →
      s.current_1d_dimension ≤ s'.current_1d_dimension ∧
      s.current_2d_dimension ≤ s'.current_2d_dimension ∧
      s.array_1d_offset ≤ s'.array_1d_offset ∧
      s.array_2d_offset ≤ s'.array_2d_offset) ∧
    (∀ r s', s.get_2d_array n = some (r, s') →
      s.current_1d_dimension ≤ s'.current_1d_dimension ∧
      s.current_2d_dimension ≤ s'.current_2d_dimension ∧
      s.array_1d_offset ≤ s'.array_1d_offset ∧
      s.array_2d_offset ≤ s'.array_2d_offset) ∧
    ((s.start_pixel p).current_pixel = p ∧
      (s.start_pixel p).current_pixel_sample_index = 0 ∧
      (s.start_pixel p).array_1d_offset = 0 ∧
      (s.start_pixel p).array_2d_offset = 0) := by
  refine ⟨⟨rfl, rfl, rfl, rfl⟩, ?_, ?_, ?_, ⟨rfl, rfl, rfl, rfl⟩⟩
  · intro v s' h
    unfold StratifiedSampler.get_1d at h
    split at h
    · split at h
      · split at h
        · simp only [Option.some.injEq, Prod.mk.injEq] at h
          obtain ⟨-, h2⟩ := h
          subst h2
          exact ⟨show s.current_1d_dimension ≤
            s.current_1d_dimension + 1 by omega, le_refl _, le_refl _,
            le_refl _⟩
        · cases h
      · simp only [Option.some.injEq, Prod.mk.injEq] at h
        obtain ⟨-, h2⟩ := h
        subst h2
        exact ⟨le_refl _, le_refl _, le_refl _, le_refl _⟩
    · cases h
  · intro w s' h
    unfold StratifiedSampler.get_2d at h
    split at h
    · split at h
      · split at h
        · simp only [Option.some.injEq, Prod.mk.injEq] at h
          obtain ⟨-, h2⟩ := h
          subst h2
          exact ⟨le_refl _, show s.current_2d_dimension ≤
            s.current_2d_dimension + 1 by omega, le_refl _, le_refl _⟩
        · cases h
      · simp only [Option.some.injEq, Prod.mk.injEq] at h
        obtain ⟨-, h2⟩ := h
        subst h2
        exact ⟨le_refl _, le_refl _, le_refl _, le_refl _⟩
    · cases h
  · intro r s' h
    unfold StratifiedSampler.get_2d_array at h
    split at h
    · simp only [Option.some.injEq, Prod.mk.injEq] at h
      obtain ⟨-, h2⟩ := h
      subst h2
      exact ⟨le_refl _, le_refl _, le_refl _, le_refl _⟩
    · split at h
      · cases h
      · split at h
        · split at h
          · split at h
            · cases h
            · split at h
              · simp only [Option.some.injEq, Prod.mk.injEq] at h
                obtain ⟨-, h2⟩ := h
                subst h2
                exact ⟨le_refl _, le_refl _, le_refl _,
                  show s.array_2d_offset ≤ s.array_2d_offset + 1 by omega⟩
              · cases h
          · cases h
        · cases h

/-- C7 witness: the hypothesis-bearing arms instantiated at the concrete
state `samplerW`: each dispensing or array-access operation succeeds there
and leaves every cursor at or above its previous value. -/
theorem claim_C7_cursor_reset_discipline_witness :
    (samplerW.get_1d = some (4,
        { samplerW with current_1d_dimension := 1 }) ∧
      samplerW.current_1d_dimension ≤
        ({ samplerW with current_1d_dimension := 1 } :
          StratifiedSampler).current_1d_dimension) ∧
    (samplerW.get_2d = some (Point2.mk 1 2,
        { samplerW with current_2d_dimension := 1 }) ∧
      samplerW.current_2d_dimension ≤
        ({ samplerW with current_2d_dimension := 1 } :
          StratifiedSampler).current_2d_dimension) ∧
    (samplerW.get_2d_array 1 = some (some [Point2.mk 5 6],
        { samplerW with array_2d_offset := 1 }) ∧
      samplerW.array_2d_offset ≤
        ({ samplerW with array_2d_offset := 1 } :
          StratifiedSampler).array_2d_offset) := by
  have h1 : samplerW.get_1d = some (4,
      { samplerW with current_1d_dimension := 1 }) := rfl
  have h2 : samplerW.get_2d = some (Point2.mk 1 2,
      { samplerW with current_2d_dimension := 1 }) := rfl
  have h3 : samplerW.get_2d_array 1 = some (some [Point2.mk 5 6],
      { samplerW with array_2d_offset := 1 }) := rfl
  refine ⟨⟨h1, ?_⟩, ⟨h2, ?_⟩, ⟨h3, ?_⟩⟩
  · exact ((claim_C7_cursor_reset_discipline samplerW (Point2.mk 0 0)
      1).2.1 4 _ h1).1
  · exact ((claim_C7_cursor_reset_discipline samplerW (Point2.mk 0 0)
      1).2.2.1 (Point2.mk 1 2) _ h2).2.1
  · exact ((claim_C7_cursor_reset_discipline samplerW (Point2.mk 0 0)
      1).2.2.2.1 (some [Point2.mk 5 6]) _ h3).2.2.2

/-- C10: when exactly one unconsumed registered 2D array slot remains
(of matching size, with the sample index in range), `get_2d_arrays`
advances the 2D array cursor past that slot but returns `(none, none)`,
so the slot's samples for the current pixel sample are consumed without
being returned; only when at least two unconsumed slots remain (both of
the registered size) does it return the current-sample slices of the
next two slots and advance the cursor by two. -/
theorem claim_C10_get_2d_arrays (s : StratifiedSampler) (n : ℤ) :
    (∀ buf, s.array_2d_offset + 1 = s.sample_array_2d.length →
      s.samples_2d_array_sizes.get? s.array_2d_offset = some n →
      s.current_pixel_sample_index < s.samples_per_pixel →
      s.sample_array_2d.get? s.array_2d_offset = some buf →
      (s.current_pixel_sample_index * n).toNat + n.toNat ≤ buf.length →
      s.get_2d_arrays n = some ((none, none),
        { s with array_2d_offset := s.array_2d_offset + 1 })) ∧
    (∀ buf buf2, s.array_2d_offset ≠ s.sample_array_2d.length →
      s.array_2d_offset + 1 ≠ s.sample_array_2d.length →
      s.samples_2d_array_sizes.get? s.array_2d_offset = some n →
      s.samples_2d_array_sizes.get? (s.array_2d_offset + 1) = some n →
      s.current_pixel_sample_index < s.samples_per_pixel →
      s.sample_array_2d.get? s.array_2d_offset = some buf →
      s.sample_array_2d.get? (s.array_2d_offset + 1) = some buf2 →
      (s.current_pixel_sample_index * n).toNat + n.toNat ≤ buf.length →
      (s.current_pixel_sample_index * n).toNat + n.toNat ≤ buf2.length →
      s.get_2d_arrays n = some
        ((some ((buf.drop ((s.current_pixel_sample_index * n).toNat)).take
            n.toNat),
          some ((buf2.drop ((s.current_pixel_sample_index * n).toNat)).take
            n.toNat)),
          { s with array_2d_offset := s.array_2d_offset + 1 + 1 })) := by
  constructor
  · intro buf hone hsz hidx hbuf hfit
    have hoff : s.array_2d_offset ≠ s.sample_array_2d.length := by omega
    unfold StratifiedSampler.get_2d_arrays
    rw [if_neg hoff, hsz]
    dsimp only
    rw [if_pos rfl, if_pos hidx, hbuf]
    dsimp only
    rw [if_pos hfit]
    rw [if_pos hone]
  · intro buf buf2 hoff htwo hsz hsz2 hidx hbuf hbuf2 hfit hfit2
    unfold StratifiedSampler.get_2d_arrays
    rw [if_neg hoff, hsz]
    dsimp only
    rw [if_pos rfl, if_pos hidx, hbuf]
    dsimp only
    rw [if_pos hfit]
    rw [if_neg htwo, hsz2]
    dsimp only
    rw [if_pos rfl, if_pos hidx, hbuf2]
    dsimp only
    rw [if_pos hfit2]

/-- C10 witness: at `samplerWOneSlot` (one unconsumed slot of size 1)
`get_2d_arrays 1` consumes the slot and returns `(none, none)`, and at
`samplerW` (two unconsumed slots of size 1) it returns both
current-sample slices and advances the cursor by two. -/
theorem claim_C10_get_2d_arrays_witness :
    (samplerWOneSlot.array_2d_offset + 1 =
        samplerWOneSlot.sample_array_2d.length ∧
      samplerWOneSlot.get_2d_arrays 1 = some ((none, none),
        { samplerWOneSlot with array_2d_offset := 1 })) ∧
    (samplerW.array_2d_offset + 1 ≠ samplerW.sample_array_2d.length ∧
      samplerW.get_2d_arrays 1 = some
        ((some [Point2.mk 5 6], some [Point2.mk 9 10]),
          { samplerW with array_2d_offset := 2 })) := by
  refine ⟨⟨by decide, ?_⟩, ⟨by decide, ?_⟩⟩
  · exact (claim_C10_get_2d_arrays samplerWOneSlot 1).1
      [Point2.mk 5 6, Point2.mk 7 8] (by decide) (by decide) (by decide)
      (by decide) (by decide)
  · exact (claim_C10_get_2d_arrays samplerW 1).2
      [Point2.mk 5 6, Point2.mk 7 8] [Point2.mk 9 10, Point2.mk 11 12]
      (by decide) (by decide) (by decide) (by decide) (by decide)
      (by decide) (by decide) (by decide) (by decide)

lemma lhsInit_length (fuel : ℕ) : ∀ (i n : ℕ) (rng : Rng),
    (lhsInit i n fuel rng).1.length = fuel := by
  induction fuel with
  | zero => intro i n rng; rfl
  | succ f ih => intro i n rng; simp [lhsInit, ih]

lemma blockSwap_length {α : Type} (l : List α) (stride i j : ℕ) :
    (blockSwap l stride i j).length = l.length := by
  simp [blockSwap]

lemma shuffleFrom_length {α : Type} (fuel : ℕ) :
    ∀ (l : List α) (count stride i : ℕ) (rng : Rng),
    (shuffleFrom l count stride i fuel rng).1.length = l.length := by
  induction fuel with
  | zero => intro l count stride i rng; rfl
  | succ f ih =>
    intro l count stride i rng
    simp [shuffleFrom, ih, blockSwap_length]

lemma shuffle_length {α : Type} (l : List α) (count stride : ℕ) (rng : Rng) :
    (shuffle l count stride rng).1.length = l.length :=
  shuffleFrom_length count l count stride 0 rng

lemma latin_hypercube_length (n : ℕ) (rng : Rng) :
    (latin_hypercube n rng).1.length = n := by
  simp [latin_hypercube, List.length_zipWith, shuffle_length, lhsInit_length]

lemma regenArray2dSlot_length (count : ℕ) : ∀ (spp : ℕ) (rng : Rng),
    (StratifiedSampler.regenArray2dSlot count spp rng).1.length =
      spp * count := by
  intro spp
  induction spp with
  | zero => intro rng; simp [StratifiedSampler.regenArray2dSlot]
  | succ j ih =>
    intro rng
    unfold StratifiedSampler.regenArray2dSlot
    dsimp only
    rw [List.length_append, latin_hypercube_length, ih, Nat.succ_mul]
    exact Nat.add_comm _ _

lemma regenArrays2d_single (n : ℤ) (spp : ℕ) (rng : Rng) :
    ∃ buf, (StratifiedSampler.regenArrays2d [n] spp rng).1 = [buf] ∧
      buf.length = spp * n.toNat :=
  ⟨(StratifiedSampler.regenArray2dSlot n.toNat spp rng).1, rfl,
    regenArray2dSlot_length n.toNat spp rng⟩

lemma start_pixel_arrays2d_single (s : StratifiedSampler) (p : Point2 ℤ)
    (n : ℤ) (hsz : s.samples_2d_array_sizes = [n]) :
    ∃ buf, (s.start_pixel p).sample_array_2d = [buf] ∧
      buf.length = s.samples_per_pixel.toNat * n.toNat := by
  obtain ⟨r, h⟩ : ∃ r : Rng, (s.start_pixel p).sample_array_2d =
      (StratifiedSampler.regenArrays2d s.samples_2d_array_sizes
        s.samples_per_pixel.toNat r).1 := ⟨_, rfl⟩
  rw [h, hsz]
  exact regenArrays2d_single n _ r

lemma int_toNat_mul_of_nonneg (k : ℕ) (n : ℤ) (hn : 0 ≤ n) :
    ((k : ℤ) * n).toNat = k * n.toNat := by
  obtain ⟨m, rfl⟩ : ∃ m : ℕ, n = (m : ℤ) :=
    ⟨n.toNat, (Int.toNat_of_nonneg hn).symm⟩
  rw [← Int.natCast_mul, Int.toNat_natCast, Int.toNat_natCast]

lemma get_2d_array_exhausted (s : StratifiedSampler) (n : ℤ)
    (h : s.array_2d_offset = s.sample_array_2d.length) :
    s.get_2d_array n = some (none, s) := by
  unfold StratifiedSampler.get_2d_array
  rw [if_pos h]

lemma get_2d_array_success (s : StratifiedSampler) (n : ℤ)
    (buf : List (Point2 ℚ))
    (hoff : s.array_2d_offset ≠ s.sample_array_2d.length)
    (hsz : s.samples_2d_array_sizes.get? s.array_2d_offset = some n)
    (hidx : s.current_pixel_sample_index < s.samples_per_pixel)
    (hbuf : s.sample_array_2d.get? s.array_2d_offset = some buf)
    (hfit : (s.current_pixel_sample_index * n).toNat + n.toNat ≤
      buf.length) :
    s.get_2d_array n = some
      (some ((buf.drop ((s.current_pixel_sample_index * n).toNat)).take
        n.toNat),
      { s with array_2d_offset := s.array_2d_offset + 1 }) := by
  unfold StratifiedSampler.get_2d_array
  rw [if_neg hoff, hsz]
  dsimp only
  rw [if_pos rfl, if_pos hidx, hbuf]
  dsimp only
  rw [if_pos hfit]

lemma request_2d_array_eq (s : StratifiedSampler) (n : ℤ) :
    s.request_2d_array n = some { s with
      samples_2d_array_sizes := s.samples_2d_array_sizes ++ [n]
      sample_array_2d := s.sample_array_2d ++
        [List.replicate (n * s.samples_per_pixel).toNat (Point2.mk 0 0)] } := by
  simp [StratifiedSampler.request_2d_array, StratifiedSampler.round_count]

lemma get_2d_array_step_of_inv (n spp : ℤ) (hn : 0 < n)
    (u : StratifiedSampler) (buf0 : List (Point2 ℚ)) (k : ℕ)
    (huspp : u.samples_per_pixel = spp)
    (huidx : u.current_pixel_sample_index = (k : ℤ))
    (huoff : u.array_2d_offset = 0)
    (husz : u.samples_2d_array_sizes = [n])
    (huarr : u.sample_array_2d = [buf0])
    (hlen : buf0.length = spp.toNat * n.toNat)
    (hk : k + 1 ≤ spp.toNat) :
    u.get_2d_array n = some
      (some ((buf0.drop ((u.current_pixel_sample_index * n).toNat)).take
        n.toNat),
      { u with array_2d_offset := u.array_2d_offset + 1 }) := by
  have hune : u.array_2d_offset ≠ u.sample_array_2d.length := by
    rw [huoff, huarr]
    simp
  have husz2 : u.samples_2d_array_sizes.get? u.array_2d_offset = some n := by
    rw [huoff, husz]
    rfl
  have hubuf : u.sample_array_2d.get? u.array_2d_offset = some buf0 := by
    rw [huoff, huarr]
    rfl
  have huidxlt : u.current_pixel_sample_index < u.samples_per_pixel := by
    rw [huidx, huspp]
    omega
  have hfit : (u.current_pixel_sample_index * n).toNat + n.toNat ≤
      buf0.length := by
    rw [huidx, hlen, int_toNat_mul_of_nonneg k n hn.le]
    calc k * n.toNat + n.toNat = (k + 1) * n.toNat := by ring
      _ ≤ spp.toNat * n.toNat := Nat.mul_le_mul_right _ hk
  exact get_2d_array_success u n buf0 hune husz2 huidxlt hubuf hfit

lemma runRounds_inv (n spp : ℤ) (hn : 0 < n) (s2 : StratifiedSampler)
    (buf0 : List (Point2 ℚ))
    (hspp : s2.samples_per_pixel = spp)
    (hidx : s2.current_pixel_sample_index = 0)
    (hoff : s2.array_2d_offset = 0)
    (hsz : s2.samples_2d_array_sizes = [n])
    (harr : s2.sample_array_2d = [buf0])
    (hlen : buf0.length = spp.toNat * n.toNat) :
    ∀ k : ℕ, k ≤ spp.toNat →
      ∃ u, StratifiedSampler.runRounds n s2 k = some u ∧
        u.samples_per_pixel = spp ∧
        u.current_pixel_sample_index = (k : ℤ) ∧
        u.array_2d_offset = 0 ∧
        u.samples_2d_array_sizes = [n] ∧
        u.sample_array_2d = [buf0] := by
  intro k
  induction k with
  | zero =>
    intro _
    exact ⟨s2, rfl, hspp, by simpa using hidx, hoff, hsz, harr⟩
  | succ k ih =>
    intro hk
    obtain ⟨u, hru, huspp, huidx, huoff, husz, huarr⟩ := ih (by omega)
    have hstep := get_2d_array_step_of_inv n spp hn u buf0 k huspp huidx
      huoff husz huarr hlen hk
    refine ⟨({ u with array_2d_offset := u.array_2d_offset + 1 } :
      StratifiedSampler).start_next_sample.2, ?_, ?_, ?_, ?_, ?_, ?_⟩
    · rw [StratifiedSampler.runRounds, hru]
      simp only [Option.some_bind, StratifiedSampler.roundStep, hstep]
    · exact huspp
    · show u.current_pixel_sample_index + 1 = ((k + 1 : ℕ) : ℤ)
      rw [huidx]
      push_cast
      ring
    · rfl
    · exact husz
    · exact huarr

/-- C3: `get_2d_array n` returns the no-more-arrays signal when the 2D
array cursor equals the number of registered slots; otherwise, provided
`n` equals the next registered size and the sample index is below
`samples_per_pixel` (and the slot's buffer holds the slice), it returns
the slice of `n` points starting at offset (sample index × n) of the next
unconsumed slot and advances the 2D array cursor by one; in particular,
after registering a single 2D array of size `n` and starting a pixel,
calling `get_2d_array n` once per pixel sample yields exactly
`samples_per_pixel` non-empty results — every per-sample call succeeds
with an `n`-point slice, and the following call in the same sample
returns the no-more-arrays signal. -/
theorem claim_C3_get_2d_array_dispense (s : StratifiedSampler) (n : ℤ) :
    (s.array_2d_offset = s.sample_array_2d.length →
      s.get_2d_array n = some (none, s)) ∧
    (∀ buf, s.array_2d_offset ≠ s.sample_array_2d.length →
      s.samples_2d_array_sizes.get? s.array_2d_offset = some n →
      s.current_pixel_sample_index < s.samples_per_pixel →
      s.sample_array_2d.get? s.array_2d_offset = some buf →
      (s.current_pixel_sample_index * n).toNat + n.toNat ≤ buf.length →
      s.get_2d_array n = some
        (some ((buf.drop ((s.current_pixel_sample_index * n).toNat)).take
          n.toNat),
        { s with array_2d_offset := s.array_2d_offset + 1 })) ∧
    (∀ (x y d : ℤ) (jitter : Bool) (rng : Rng) (p : Point2 ℤ)
      (s1 : StratifiedSampler), 0 < n →
      (StratifiedSampler.new x y jitter d rng).request_2d_array n =
        some s1 →
      ∀ k, k < (s1.start_pixel p).samples_per_pixel.toNat →
        ∃ u, StratifiedSampler.runRounds n (s1.start_pixel p) k = some u ∧
          ∃ l u2, u.get_2d_array n = some (some l, u2) ∧
            l.length = n.toNat ∧ l ≠ [] ∧
            u2.get_2d_array n = some (none, u2)) := by
  refine ⟨get_2d_array_exhausted s n, get_2d_array_success s n, ?_⟩
  intro x y d jitter rng p s1 hn hreq k hk
  rw [request_2d_array_eq] at hreq
  injection hreq with hs1
  have hsz1 : s1.samples_2d_array_sizes = [n] := by
    rw [← hs1]
    simp [StratifiedSampler.new]
  obtain ⟨buf0, harr, hlen⟩ := start_pixel_arrays2d_single s1 p n hsz1
  obtain ⟨u, hru, huspp, huidx, huoff, husz, huarr⟩ :=
    runRounds_inv n ((s1.start_pixel p).samples_per_pixel) hn
      (s1.start_pixel p) buf0 rfl rfl rfl hsz1 harr hlen k (le_of_lt hk)
  refine ⟨u, hru, ?_⟩
  have hstep := get_2d_array_step_of_inv n _ hn u buf0 k huspp huidx huoff
    husz huarr hlen (by omega)
  have hlength : ((buf0.drop
      ((u.current_pixel_sample_index * n).toNat)).take n.toNat).length =
      n.toNat := by
    rw [List.length_take, List.length_drop, huidx,
      int_toNat_mul_of_nonneg k n hn.le, hlen]
    have hk2 : k + 1 ≤ s1.samples_per_pixel.toNat := hk
    have h3 : k * n.toNat + n.toNat ≤
        s1.samples_per_pixel.toNat * n.toNat := by
      calc k * n.toNat + n.toNat = (k + 1) * n.toNat := by ring
        _ ≤ _ := Nat.mul_le_mul_right _ hk2
    omega
  refine ⟨_, _, hstep, hlength, ?_, ?_⟩
  · intro hnil
    rw [hnil] at hlength
    simp at hlength
    omega
  · exact get_2d_array_exhausted _ n (by simp [huoff, huarr])

/-- C3 witness: at `samplerW` the dispensing arm returns the first slot's
current-sample slice and advances the cursor; and in the concrete
scenario (a 1×2-sample sampler with a single registered size-1 2D array,
pixel started), after one full round the second pixel sample still
receives a non-empty slice whose follow-up call returns the
no-more-arrays signal. -/
theorem claim_C3_get_2d_array_dispense_witness :
    (samplerW.array_2d_offset ≠ samplerW.sample_array_2d.length ∧
      samplerW.get_2d_array 1 = some (some [Point2.mk 5 6],
        { samplerW with array_2d_offset := 1 })) ∧
    (∃ u, StratifiedSampler.runRounds 1
        (({ StratifiedSampler.new 1 2 false 0 rngW with
          samples_2d_array_sizes := [(1 : ℤ)]
          sample_array_2d := [List.replicate 2 (Point2.mk 0 0)] } :
          StratifiedSampler).start_pixel (Point2.mk 0 0)) 1 = some u ∧
      ∃ l u2, u.get_2d_array 1 = some (some l, u2) ∧ l.length = 1 ∧
        l ≠ [] ∧ u2.get_2d_array 1 = some (none, u2)) := by
  constructor
  · refine ⟨by decide, ?_⟩
    exact (claim_C3_get_2d_array_dispense samplerW 1).2.1
      [Point2.mk 5 6, Point2.mk 7 8] (by decide) (by decide) (by decide)
      (by decide) (by decide)
  · exact (claim_C3_get_2d_array_dispense samplerW 1).2.2 1 2 0 false rngW
      (Point2.mk 0 0) _ (by decide) rfl 1 (by decide)
